import Mathlib

/-!
Verification of the recommendation core of the Shopping Co-Pilot repository
(files `utils.py` and `rag_system.py`), shallowly embedded in Lean 4.

Python values that flow through the product dictionaries are modelled by
the type `PVal` (strings, numbers as rationals, and `None`); a Python
dictionary is modelled as an association list of string keys in insertion
order, matching CPython's ordered-dict semantics for `copy`, `get`,
key assignment (overwrite in place, new keys appended) and key listing.
Numeric fields of the catalog are numbers; Python floats are modelled by
rationals.
-/

/-- Values stored in product dictionaries: Python `None`, strings, numbers. -/
inductive PVal where
  | vNone : PVal
  | vStr (s : String) : PVal
  | vNum (q : ℚ) : PVal
deriving DecidableEq

/-- Python `str()` rendering of a value (used by f-string interpolation). -/
def pyStr : PVal → String
  | .vNone => "None"
  | .vStr s => s
  | .vNum q => if q.den = 1 then toString q.num else toString q.num ++ "/" ++ toString q.den

/-- Python truthiness for the values we model: `None` and the empty string
are falsy, any other string is truthy, a number is truthy iff nonzero. -/
def pyTruthy : PVal → Bool
  | .vNone => false
  | .vStr s => s ≠ ""
  | .vNum q => q ≠ 0

/-- Numeric reading of a value; the catalog's numeric columns hold numbers
(on a non-number Python would raise, a case outside the catalog schema). -/
def pvNum : PVal → ℚ
  | .vNum q => q
  | _ => 0

/-- A Python dict as an association list in key-insertion order. -/
abbrev Dict := List (String × PVal)

/-- Python `d.get(k)`: value at the key, `None` when absent. -/
def dget (d : Dict) (k : String) : PVal :=
  match d.find? (fun kv => kv.1 == k) with
  | some kv => kv.2
  | none => .vNone

/-- Python `d.get(k, dflt)`. -/
def dgetD (d : Dict) (k : String) (dflt : PVal) : PVal :=
  match d.find? (fun kv => kv.1 == k) with
  | some kv => kv.2
  | none => dflt

/-- Python `d[k] = v`: overwrite in place when the key exists, else append. -/
def dset (d : Dict) (k : String) (v : PVal) : Dict :=
  if d.any (fun kv => kv.1 == k) then
    d.map (fun kv => if kv.1 == k then (k, v) else kv)
  else d ++ [(k, v)]

/-- The keys of a dict, in insertion order. -/
def dkeys (d : Dict) : List String := d.map (fun kv => kv.1)

/-- Whether the first list occurs at the head of the second. -/
def matchesAt : List Char → List Char → Bool
  | [], _ => true
  | _ :: _, [] => false
  | a :: as, b :: bs => a == b && matchesAt as bs

/-- Whether the first list occurs contiguously anywhere in the second. -/
def occursIn (needle : List Char) : List Char → Bool
  | [] => needle.isEmpty
  | b :: bs => matchesAt needle (b :: bs) || occursIn needle bs

/-- Python `needle in haystack` on strings: substring containment. -/
def pyIn (needle haystack : String) : Bool :=
  occursIn needle.toList haystack.toList

/-- Python `str.lower()`, character by character (the repository only
lowercases ASCII gender tokens). -/
def pyLower (s : String) : String :=
  ⟨s.toList.map Char.toLower⟩

/-- utils.normalize_gender: case-insensitively maps male/men to "Men" and
female/women to "Women"; any other value (including None) is returned
unchanged. -/
def normalize_gender : PVal → PVal
  | .vStr s =>
    if pyLower s = "male" ∨ pyLower s = "men" then .vStr "Men"
    else if pyLower s = "female" ∨ pyLower s = "women" then .vStr "Women"
    else .vStr s
  | v => v

/-- Digits grouped in threes with commas, on a reversed digit list. -/
def insertCommas : List Char → List Char
  | a :: b :: c :: rest =>
    match rest with
    | [] => [a, b, c]
    | _ :: _ => a :: b :: c :: ',' :: insertCommas rest
  | l => l

/-- Python `f"{n:,}"` for an integer: thousands separators. -/
def commaInt (n : Int) : String :=
  (if n < 0 then "-" else "") ++ ⟨(insertCommas (toString n.natAbs).toList.reverse).reverse⟩

/-- Python `f"{v:,}"` for a catalog price value; catalog prices are
integers, non-integral numbers fall back to the plain rendering. -/
def pyFormatComma : PVal → String
  | .vNum q => if q.den = 1 then commaInt q.num else pyStr (.vNum q)
  | v => pyStr v

/-- Modelled from the spec: the image-hosting boundary of section 6 —
cloudinary.CloudinaryImage(product_id).build_url(width=400) is an external
service the core treats as an opaque string-producing function of the
product id; modelled as a fixed URL builder. -/
def build_url (product_id : PVal) : PVal :=
  .vStr ("https://res.cloudinary.com/w_400/" ++ pyStr product_id)

/-- utils.determine_women_shape_by_ratio: ordered ratio rules, first match
wins; any non-positive measurement yields "unknown" up front. -/
def determine_women_shape_by_ratio (shoulders bust waist hips : ℚ) : String :=
  if shoulders ≤ 0 ∨ bust ≤ 0 ∨ waist ≤ 0 ∨ hips ≤ 0 then "unknown"
  else if waist / shoulders ≥ 1.05 ∧ waist / bust ≥ 1.05 then "Apple"
  else if shoulders / hips ≥ 1.05 ∨ bust / hips ≥ 1.05 then "Inverted Triangle"
  else if hips / shoulders ≥ 1.05 ∨ hips / bust ≥ 1.05 then "Pear"
  else if waist / shoulders ≥ 0.75 ∧ waist / bust ≥ 0.75 then "Rectangle"
  else if (waist / shoulders ≤ 0.75 ∨ waist / bust ≤ 0.75) ∧ waist / hips ≤ 0.75 then "Hourglass"
  else "unknown"

/-- utils.determine_men_shape_by_logic: ordered centimeter-band rules,
first match wins, else "unknown". -/
def determine_men_shape_by_logic (chest waist hips : ℚ) : String :=
  if (76.2 ≤ chest ∧ chest ≤ 86.36) ∧ (76.2 ≤ waist ∧ waist ≤ 86.36) ∧
      (76.2 ≤ hips ∧ hips ≤ 86.36) then "Rectangle"
  else if (81.28 ≤ chest ∧ chest ≤ 91.44) ∧ (81.28 ≤ waist ∧ waist ≤ 91.44) ∧
      (81.28 ≤ hips ∧ hips ≤ 91.44) then "Oval"
  else if (71.12 ≤ chest ∧ chest ≤ 81.28) ∧ (76.2 ≤ waist ∧ waist ≤ 86.36) ∧
      (86.36 ≤ hips ∧ hips ≤ 96.52) then "Triangle"
  else if (91.44 ≤ chest ∧ chest ≤ 101.6) ∧ (71.12 ≤ waist ∧ waist ≤ 81.28) ∧
      (71.12 ≤ hips ∧ hips ≤ 81.28) then "Inverted Triangle"
  else if (91.44 ≤ chest ∧ chest ≤ 101.6) ∧ (76.2 ≤ waist ∧ waist ≤ 86.36) ∧
      (86.36 ≤ hips ∧ hips ≤ 96.52) then "Trapezoid"
  else "unknown"

/-- utils.format_product_dictionary: copies the product dict and adds the
display keys on top of the original catalog keys (note: it never writes
lowercase brand, color or rating keys). -/
def format_product_dictionary (p : Dict) : Dict :=
  let d1 := dset p "id" (dget p "Product_ID")
  let d2 := dset d1 "name" (dgetD d1 "Product_Name" (.vStr "N/A"))
  let d3 := dset d2 "price" (.vStr ("IDR " ++ pyFormatComma (dgetD d2 "Price" (.vNum 0))))
  let d4 := dset d3 "raw_price" (dgetD d3 "Price" (.vNum 0))
  let d5 := dset d4 "image_url" (build_url (dget d4 "Product_ID"))
  let d6 := dset d5 "reviews" (dgetD d5 "Number_of_Reviews" (.vNum 0))
  let d7 := dset d6 "category" (dgetD d6 "Category" (.vStr "N/A"))
  let d8 := dset d7 "material" (dgetD d7 "Material" (.vStr "N/A"))
  let d9 := dset d8 "size" (dgetD d8 "Size" (.vStr ""))
  let d10 := dset d9 "description" (dgetD d9 "Description" (.vStr "No description available."))
  dset d10 "gender" (dgetD d10 "Gender_Orientation" (.vStr "N/A"))

/-- The display keys format_product_dictionary writes, in write order. -/
def formatAddedKeys : List String :=
  ["id", "name", "price", "raw_price", "image_url", "reviews", "category",
   "material", "size", "description", "gender"]

/-- utils.show_trending_products' scoring function. -/
def calculate_trending_score (p : Dict) : ℚ :=
  pvNum (dgetD p "Rating" (.vNum 0)) * 0.6 + pvNum (dgetD p "Number_of_Reviews" (.vNum 0)) * 0.2
    + pvNum (dgetD p "Trending_Score" (.vNum 0)) * 0.2

/-- utils.show_trending_products: optional normalized-gender filter, stable
descending sort by trending score (Python's stable `sorted` with
reverse=True is insertion sort under the "score of the left is at least
the score of the right" relation), first five, display formatting. -/
def show_trending_products (products_list : List Dict) (gender : PVal) : List Dict :=
  let target_products :=
    if pyTruthy gender then
      products_list.filter
        (fun p => normalize_gender (dget p "Gender_Orientation") == normalize_gender gender)
    else products_list
  let sorted_products :=
    (List.insertionSort (fun a b => calculate_trending_score b ≤ calculate_trending_score a)
      target_products).take 5
  sorted_products.map format_product_dictionary

/-- Longest run of digits at the head of the list. -/
def digitRun : List Char → List Char
  | [] => []
  | c :: rest => if c.isDigit then c :: digitRun rest else []

/-- First maximal digit run in the list, Python re.search of one or more
digits. -/
def firstDigitRun : List Char → Option (List Char)
  | [] => none
  | c :: rest => if c.isDigit then some (c :: digitRun rest) else firstDigitRun rest

/-- Numeric value of a digit list. -/
def digitsToNat (l : List Char) : Nat :=
  l.foldl (fun acc c => acc * 10 + (c.toNat - 48)) 0

/-- utils.show_top_5_discounted_products' key: first integer substring of
the Discount field, absence scoring zero. -/
def get_discount_percentage (p : Dict) : Nat :=
  let discount_str := dgetD p "Discount" (.vStr "0%")
  match firstDigitRun (pyStr discount_str).toList with
  | some ds => digitsToNat ds
  | none => 0

/-- utils.show_top_5_discounted_products: optional normalized-gender
filter, stable descending sort by discount percentage, first five,
display formatting. -/
def show_top_5_discounted_products (products_list : List Dict) (gender : PVal) : List Dict :=
  let target_products :=
    if pyTruthy gender then
      products_list.filter
        (fun p => normalize_gender (dget p "Gender_Orientation") == normalize_gender gender)
    else products_list
  let sorted_products :=
    (List.insertionSort (fun a b => get_discount_percentage b ≤ get_discount_percentage a)
      target_products).take 5
  sorted_products.map format_product_dictionary

/-- The embedding boundary: client.embeddings.create for one input string;
an error value models the ServiceError the spec's section 6 describes. -/
abbrev EmbedClient := String → Except String (List ℚ)

/-- The FAISS nearest-neighbor index boundary: a query vector and k give
the row of ordinals (with -1 denoting no match). -/
abbrev NNIndex := List ℚ → Nat → List Int

/-- Python list indexing (non-negative from the front, negative from the
back, out of range is an IndexError modelled as none). -/
def pyIndex (l : List Dict) (i : Int) : Option Dict :=
  if 0 ≤ i then l.get? i.toNat
  else if 0 ≤ (l.length : Int) + i then l.get? ((l.length : Int) + i).toNat
  else none

/-- The result-dictionary literal built for each hit, verbatim identical in
FashionRAG.search and CustomerRAG.get_recommendations_for_customer. -/
def mkDisplay (idx : Int) (item : Dict) : Dict :=
  let product_id := dgetD item "Product_ID" (.vStr ("rec_" ++ toString idx))
  [("id", product_id),
   ("name", dgetD item "Product_Name" (.vStr "N/A")),
   ("price", .vStr ("IDR " ++ pyFormatComma (dgetD item "Price" (.vNum 0)))),
   ("raw_price", dgetD item "Price" (.vNum 0)),
   ("brand", dgetD item "Brand" (.vStr "N/A")),
   ("color", dgetD item "Color" (.vStr "N/A")),
   ("gender", dgetD item "Gender_Orientation" (.vStr "N/A")),
   ("image_url", build_url product_id),
   ("rating", dgetD item "Rating" (.vNum 0)),
   ("reviews", dgetD item "Number_of_Reviews" (.vNum 0)),
   ("category", dgetD item "Category" (.vStr "N/A")),
   ("description", dgetD item "Description" (.vStr "No description available.")),
   ("material", dgetD item "Material" (.vStr "N/A")),
   ("size", dgetD item "Size" (.vStr ""))]

/-- The result loop of both retrieval methods: skip ordinal -1, index into
product_details (an exception — details not loaded or ordinal out of
range — propagates as an error), build the display record per hit. -/
def hydrateLoop (product_details : Option (List Dict)) : List Int → Except String (List Dict)
  | [] => .ok []
  | idx :: rest =>
    if idx = -1 then hydrateLoop product_details rest
    else
      match product_details with
      | none => .error "TypeError: product details not loaded"
      | some ds =>
        match pyIndex ds idx with
        | none => .error "IndexError: list index out of range"
        | some item =>
          match hydrateLoop product_details rest with
          | .error e => .error e
          | .ok results => .ok (mkDisplay idx item :: results)

/-- The soft-hint query builder shared by both retrievers: prepend the
normalized gender when it is truthy. -/
def searchQueryOf (gender : PVal) (text : String) : String :=
  let normalized_gender := normalize_gender gender
  if pyTruthy normalized_gender then pyStr normalized_gender ++ " " ++ text else text

/-- rag_system.FashionRAG: the loaded index, the embedding client and the
parallel product-detail list; a None field models the corresponding load
or init failure. -/
structure FashionRAG where
  index : Option NNIndex
  client : Option EmbedClient
  product_details : Option (List Dict)

/-- rag_system.FashionRAG.search: guard on missing index/client, embed the
gender-hinted query (an embedding-service failure is caught and degrades
to the empty list), search the index, hydrate the hits. -/
def FashionRAG.search (rag : FashionRAG) (query : String) (k : Nat) (gender : PVal) :
    Except String (List Dict) :=
  match rag.index, rag.client with
  | some index, some client =>
    match client (searchQueryOf gender query) with
    | .error _ => .ok []
    | .ok query_vector => hydrateLoop rag.product_details (index query_vector k)
  | _, _ => .ok []

/-- A products_df row, with the two columns build_customer_profile reads. -/
structure ProductRow where
  Product_ID : String
  Product_Name : String
deriving DecidableEq

/-- A cell of a serialized product-id-list column: the raw string as stored,
or the parsed list after the in-place overwrite by build_customer_profile. -/
inductive Cell where
  | raw (s : String)
  | parsed (l : List String)
deriving DecidableEq

/-- A sessions_df row. -/
structure SessionRow where
  Customer_ID : String
  Search_Queries : String
  Clicked_Product_IDs : Cell
deriving DecidableEq

/-- A transactions_df row. -/
structure TransactionRow where
  Customer_ID : String
  Purchased_Product_IDs : Cell
deriving DecidableEq

/-- A wishlists_df row (column "Wishlist Items"). -/
structure WishlistRow where
  Customer_ID : String
  Wishlist_Items : Cell
deriving DecidableEq

/-- rag_system safe_literal_eval, parameterized by the behavior of Python's
ast.literal_eval on the stored strings (litEval returns none on a
ValueError/SyntaxError, which safe_literal_eval turns into the empty
list); literal_eval applied to an already-parsed list raises ValueError,
hence the empty list on a parsed cell. -/
def safe_literal_eval (litEval : String → Option (List String)) : Cell → List String
  | .raw s => (litEval s).getD []
  | .parsed _ => []

/-- The list held by a parsed cell (np.concatenate input). -/
def Cell.toList : Cell → List String
  | .raw _ => []
  | .parsed l => l

/-- pandas Series.unique: distinct values in first-seen order. -/
def uniqueFirstAux (seen : List String) : List String → List String
  | [] => []
  | a :: l => if a ∈ seen then uniqueFirstAux seen l else a :: uniqueFirstAux (a :: seen) l

/-- pandas Series.unique: distinct values in first-seen order. -/
def uniqueFirst (l : List String) : List String := uniqueFirstAux [] l

/-- rag_system.CustomerRAG: the products table plus the same loaded
artifacts as FashionRAG. -/
structure CustomerRAG where
  products_df : List ProductRow
  index : Option NNIndex
  client : Option EmbedClient
  product_details : Option (List Dict)

/-- rag_system.CustomerRAG._get_product_details: names of the products whose
id occurs in the list, in products_df order, comma-joined. -/
def CustomerRAG.get_product_details (rag : CustomerRAG) (product_ids : List String) : String :=
  if product_ids.isEmpty then ""
  else
    String.intercalate ", "
      ((rag.products_df.filter (fun r => product_ids.contains r.Product_ID)).map
        (fun r => r.Product_Name))

/-- The value and the frame effect of build_customer_profile: the profile
string plus the three tables as they stand after the in-place column
overwrites (Python mutates the caller's dataframes; the mutation is
modelled by returning the updated tables). -/
structure ProfileResult where
  profile : String
  sessions : List SessionRow
  transactions : List TransactionRow
  wishlists : List WishlistRow
deriving DecidableEq

/-- rag_system.CustomerRAG.build_customer_profile: parse the three
serialized list columns in place, take the customer's first 7 session and
transaction rows and all wishlist rows, and assemble the profile clauses;
the sentinel "No activity data found" when no clause was produced. The
source's catch-all except cannot fire in this typed model (its only
triggers are missing columns or ill-shaped cells). -/
def CustomerRAG.build_customer_profile (rag : CustomerRAG)
    (litEval : String → Option (List String)) (customer_id : String)
    (sessions_df : List SessionRow) (transactions_df : List TransactionRow)
    (wishlists_df : List WishlistRow) : ProfileResult :=
  let sessions' := sessions_df.map (fun r =>
    { r with Clicked_Product_IDs := Cell.parsed (safe_literal_eval litEval r.Clicked_Product_IDs) })
  let cust_sessions := (sessions'.filter (fun r => r.Customer_ID == customer_id)).take 7
  let partsA : List String :=
    if cust_sessions.isEmpty then []
    else
      let searches := uniqueFirst (cust_sessions.map (fun r => r.Search_Queries))
      let withSearches := ["Searched for: " ++ String.intercalate ", " searches ++ "."]
      let clicked_ids := (cust_sessions.map (fun r => r.Clicked_Product_IDs.toList)).flatten
      if clicked_ids.isEmpty then withSearches
      else withSearches ++ ["Interested in: " ++ rag.get_product_details clicked_ids ++ "."]
  let transactions' := transactions_df.map (fun r =>
    { r with Purchased_Product_IDs :=
        Cell.parsed (safe_literal_eval litEval r.Purchased_Product_IDs) })
  let cust_transactions := (transactions'.filter (fun r => r.Customer_ID == customer_id)).take 7
  let partsB :=
    if cust_transactions.isEmpty then partsA
    else
      let purchased_ids := (cust_transactions.map (fun r => r.Purchased_Product_IDs.toList)).flatten
      if purchased_ids.isEmpty then partsA
      else partsA ++ ["Purchased: " ++ rag.get_product_details purchased_ids ++ "."]
  let wishlists' := wishlists_df.map (fun r =>
    { r with Wishlist_Items := Cell.parsed (safe_literal_eval litEval r.Wishlist_Items) })
  let cust_wishlists := wishlists'.filter (fun r => r.Customer_ID == customer_id)
  let partsC :=
    if cust_wishlists.isEmpty then partsB
    else
      let wishlist_ids := (cust_wishlists.map (fun r => r.Wishlist_Items.toList)).flatten
      if wishlist_ids.isEmpty then partsB
      else partsB ++ ["Wants: " ++ rag.get_product_details wishlist_ids ++ "."]
  { profile := if partsC.isEmpty then "No activity data found" else String.intercalate " " partsC
    sessions := sessions'
    transactions := transactions'
    wishlists := wishlists' }

/-- rag_system.CustomerRAG.get_recommendations_for_customer: build the
profile, short-circuit to the empty list on the sentinel or error marker
substrings, then embed the gender-hinted profile — this embedding call is
NOT wrapped in try/except in the source, so an embedding-service error
propagates — and search with fixed k = 5. -/
def CustomerRAG.get_recommendations_for_customer (rag : CustomerRAG)
    (litEval : String → Option (List String)) (customer_id : String)
    (sessions_df : List SessionRow) (transactions_df : List TransactionRow)
    (wishlists_df : List WishlistRow) (gender : PVal) : Except String (List Dict) :=
  let customer_profile :=
    (rag.build_customer_profile litEval customer_id sessions_df transactions_df
      wishlists_df).profile
  if pyIn "No activity data" customer_profile || pyIn "Error" customer_profile then .ok []
  else
    match rag.index, rag.client with
    | some index, some client =>
      match client (searchQueryOf gender customer_profile) with
      | .error e => .error e
      | .ok query_vector => hydrateLoop rag.product_details (index query_vector 5)
    | _, _ => .ok []

/-- A sample men's catalog product with the full column set. -/
def sampleProduct : Dict :=
  [("Product_ID", .vStr "P1"), ("Product_Name", .vStr "Tee"), ("Price", .vNum 15000),
   ("Brand", .vStr "B"), ("Color", .vStr "Red"), ("Gender_Orientation", .vStr "Men"),
   ("Rating", .vNum 4), ("Number_of_Reviews", .vNum 10), ("Trending_Score", .vNum 2),
   ("Discount", .vStr "20% off"), ("Category", .vStr "Top"), ("Material", .vStr "Cotton"),
   ("Size", .vStr "M, L"), ("Description", .vStr "desc")]

/-- A sample women's catalog product (gender normalizes to "Women"). -/
def sampleWomenProduct : Dict :=
  [("Product_ID", .vStr "P2"), ("Product_Name", .vStr "Skirt"),
   ("Gender_Orientation", .vStr "Female"), ("Rating", .vNum 5)]

/-- C3: whenever at least one measurement is zero or negative, the women's
classifier returns "unknown" (by its explicit guard) and the men's
classifier returns "unknown" (every band rule bounds each measurement from
below by a positive length, so all rules fail and the fallback fires). -/
theorem nonpositive_measurements_classify_unknown :
    (∀ shoulders bust waist hips : ℚ,
      (shoulders ≤ 0 ∨ bust ≤ 0 ∨ waist ≤ 0 ∨ hips ≤ 0) →
        determine_women_shape_by_ratio shoulders bust waist hips = "unknown") ∧
    (∀ chest waist hips : ℚ,
      (chest ≤ 0 ∨ waist ≤ 0 ∨ hips ≤ 0) →
        determine_men_shape_by_logic chest waist hips = "unknown") := by
  constructor
  · intro shoulders bust waist hips h
    unfold determine_women_shape_by_ratio
    rw [if_pos h]
  · intro chest waist hips h
    unfold determine_men_shape_by_logic
    split_ifs with h1 h2 h3 h4 h5
    · exfalso; rcases h with hx | hx | hx
      · linarith [h1.1.1]
      · linarith [h1.2.1.1]
      · linarith [h1.2.2.1]
    · exfalso; rcases h with hx | hx | hx
      · linarith [h2.1.1]
      · linarith [h2.2.1.1]
      · linarith [h2.2.2.1]
    · exfalso; rcases h with hx | hx | hx
      · linarith [h3.1.1]
      · linarith [h3.2.1.1]
      · linarith [h3.2.2.1]
    · exfalso; rcases h with hx | hx | hx
      · linarith [h4.1.1]
      · linarith [h4.2.1.1]
      · linarith [h4.2.2.1]
    · exfalso; rcases h with hx | hx | hx
      · linarith [h5.1.1]
      · linarith [h5.2.1.1]
      · linarith [h5.2.2.1]
    · rfl

/-- Witness for C3 at concrete non-positive measurements. -/
theorem nonpositive_measurements_classify_unknown_witness :
    determine_women_shape_by_ratio 0 90 70 95 = "unknown" ∧
    determine_men_shape_by_logic (-1) 80 80 = "unknown" :=
  ⟨nonpositive_measurements_classify_unknown.1 0 90 70 95 (Or.inl le_rfl),
   nonpositive_measurements_classify_unknown.2 (-1) 80 80 (Or.inl (by norm_num))⟩

/-- C4: at shoulders=100, bust=100, waist=106, hips=100 rule 1 fires
(waist/shoulders = waist/bust = 1.06 ≥ 1.05) and the classifier returns
"Apple", even though the later Rectangle rule's condition
(waist/shoulders ≥ 0.75 and waist/bust ≥ 0.75) also holds at this input:
first match wins. -/
theorem women_shape_rule_order_apple :
    determine_women_shape_by_ratio 100 100 106 100 = "Apple" ∧
    ((106 : ℚ) / 100 ≥ 0.75 ∧ (106 : ℚ) / 100 ≥ 0.75) := by
  refine ⟨?_, by norm_num⟩
  unfold determine_women_shape_by_ratio
  norm_num

/-- C5: normalize_gender is idempotent on every value, maps any casing of
male/men to "Men" and of female/women to "Women", returns any other
non-null value unchanged, and returns None as None. -/
theorem normalize_gender_idempotent_case_insensitive :
    (∀ v : PVal, normalize_gender (normalize_gender v) = normalize_gender v) ∧
    (∀ s : String, (pyLower s = "male" ∨ pyLower s = "men") →
      normalize_gender (.vStr s) = .vStr "Men") ∧
    (∀ s : String, (pyLower s = "female" ∨ pyLower s = "women") →
      normalize_gender (.vStr s) = .vStr "Women") ∧
    (∀ s : String, pyLower s ∉ ["male", "men", "female", "women"] →
      normalize_gender (.vStr s) = .vStr s) ∧
    normalize_gender .vNone = .vNone := by
  have hmen : ∀ s : String, (pyLower s = "male" ∨ pyLower s = "men") →
      normalize_gender (.vStr s) = .vStr "Men" := by
    intro s h
    simp only [normalize_gender]
    rw [if_pos h]
  have hwomen : ∀ s : String, (pyLower s = "female" ∨ pyLower s = "women") →
      normalize_gender (.vStr s) = .vStr "Women" := by
    intro s h
    have hne : ¬(pyLower s = "male" ∨ pyLower s = "men") := by
      rcases h with h | h <;> rw [h] <;> decide
    simp only [normalize_gender]
    rw [if_neg hne, if_pos h]
  have hother : ∀ s : String, pyLower s ∉ ["male", "men", "female", "women"] →
      normalize_gender (.vStr s) = .vStr s := by
    intro s h
    simp only [List.mem_cons, List.not_mem_nil, or_false, not_or] at h
    simp only [normalize_gender]
    rw [if_neg (by tauto), if_neg (by tauto)]
  refine ⟨?_, hmen, hwomen, hother, rfl⟩
  intro v
  cases v with
  | vNone => rfl
  | vNum q => rfl
  | vStr s =>
    by_cases h1 : pyLower s = "male" ∨ pyLower s = "men"
    · rw [hmen s h1, hmen "Men" (Or.inr (by decide))]
    · by_cases h2 : pyLower s = "female" ∨ pyLower s = "women"
      · rw [hwomen s h2, hwomen "Women" (Or.inr (by decide))]
      · have h3 : pyLower s ∉ ["male", "men", "female", "women"] := by
          simp only [List.mem_cons, List.not_mem_nil, or_false, not_or]
          tauto
        rw [hother s h3, hother s h3]

/-- Witness for C5 at concrete inputs covering each hypothesis-bearing part. -/
theorem normalize_gender_idempotent_case_insensitive_witness :
    normalize_gender (.vStr "MALE") = .vStr "Men" ∧
    normalize_gender (.vStr "Women") = .vStr "Women" ∧
    normalize_gender (.vStr "Unisex") = .vStr "Unisex" :=
  ⟨normalize_gender_idempotent_case_insensitive.2.1 "MALE" (Or.inl (by decide)),
   normalize_gender_idempotent_case_insensitive.2.2.1 "Women" (Or.inr (by decide)),
   normalize_gender_idempotent_case_insensitive.2.2.2.1 "Unisex" (by decide)⟩

/-- Overwriting an existing key in place leaves the key list unchanged. -/
theorem dkeys_overwrite (d : Dict) (k' : String) (v : PVal) :
    dkeys (d.map (fun kv => if kv.1 == k' then (k', v) else kv)) = dkeys d := by
  induction d with
  | nil => rfl
  | cons kv d ih =>
    simp only [List.map_cons, dkeys, List.map] at ih ⊢
    rw [ih]
    by_cases h : kv.1 == k'
    · rw [if_pos h]
      exact congrArg (· :: _) (eq_of_beq h).symm
    · rw [if_neg h]

/-- Key membership after a Python dict assignment: the old keys plus the
assigned key. -/
theorem mem_dkeys_dset (d : Dict) (k' : String) (v : PVal) (k : String) :
    k ∈ dkeys (dset d k' v) ↔ k ∈ dkeys d ∨ k = k' := by
  unfold dset
  by_cases h : d.any (fun kv => kv.1 == k') = true
  · rw [if_pos h, dkeys_overwrite]
    constructor
    · exact Or.inl
    · rintro (hk | rfl)
      · exact hk
      · obtain ⟨kv, hkv, hbeq⟩ := List.any_eq_true.mp h
        have hk : kv.1 = k := eq_of_beq hbeq
        exact hk ▸ List.mem_map_of_mem (fun kv => kv.1) hkv
  · rw [if_neg h]
    simp [dkeys]

/-- C2 counterexample: the record top_trending builds from a full catalog
product has no "brand" key (format_product_dictionary never writes it),
while the claim's common 14-key set — the one QueryRetriever records
carry — contains "brand"; so the four producers do not share one key set. -/
theorem trending_record_missing_brand_key :
    ∃ q ∈ show_trending_products [sampleProduct] PVal.vNone,
      "brand" ∉ dkeys q ∧ "brand" ∈ dkeys (mkDisplay 0 sampleProduct) := by
  decide

/-- C2 amended: records built by QueryRetriever/HistoryRetriever hydration
have exactly the claimed 14 keys, while records built by
format_product_dictionary (used by top_trending and top_discounted) have
the input product's original keys plus the 11 display keys id, name,
price, raw_price, image_url, reviews, category, material, size,
description, gender — in particular they lack brand, color and rating
unless the input product already had those exact keys. -/
theorem display_key_sets_by_producer :
    (∀ (idx : Int) (item : Dict),
      dkeys (mkDisplay idx item)
        = ["id", "name", "price", "raw_price", "brand", "color", "gender", "image_url",
           "rating", "reviews", "category", "description", "material", "size"]) ∧
    (∀ (p : Dict) (k : String),
      k ∈ dkeys (format_product_dictionary p) ↔ k ∈ dkeys p ∨ k ∈ formatAddedKeys) := by
  constructor
  · intro idx item
    rfl
  · intro p k
    simp only [format_product_dictionary, mem_dkeys_dset, formatAddedKeys, List.mem_cons,
      List.not_mem_nil, or_false]
    tauto

/-- C8: every record returned by show_trending_products under the gender
hint "male" is the display formatting of an input product whose
normalized gender field is exactly "Men"; products with a missing or
differently-normalizing gender are excluded by the filter. -/
theorem trending_gender_filter_only_men (products : List Dict) (q : Dict)
    (hq : q ∈ show_trending_products products (.vStr "male")) :
    ∃ p ∈ products, q = format_product_dictionary p ∧
      normalize_gender (dget p "Gender_Orientation") = .vStr "Men" := by
  have hval : show_trending_products products (.vStr "male")
      = ((List.insertionSort
            (fun a b => calculate_trending_score b ≤ calculate_trending_score a)
            (products.filter
              (fun p => normalize_gender (dget p "Gender_Orientation") == PVal.vStr "Men"))).take
          5).map format_product_dictionary := rfl
  rw [hval] at hq
  obtain ⟨p, hp, rfl⟩ := List.mem_map.mp hq
  have hp2 := List.mem_of_mem_take hp
  have hp3 := (List.mem_insertionSort _).mp hp2
  obtain ⟨hmem, hpred⟩ := List.mem_filter.mp hp3
  exact ⟨p, hmem, rfl, by simpa using hpred⟩

/-- Witness for C8: the men's sample product passes the filter and is
returned, the women's sample product is excluded. -/
theorem trending_gender_filter_only_men_witness :
    format_product_dictionary sampleProduct
        ∈ show_trending_products [sampleProduct, sampleWomenProduct] (.vStr "male") ∧
    ∃ p ∈ [sampleProduct, sampleWomenProduct],
      format_product_dictionary sampleProduct = format_product_dictionary p ∧
      normalize_gender (dget p "Gender_Orientation") = .vStr "Men" :=
  ⟨by decide,
   trending_gender_filter_only_men [sampleProduct, sampleWomenProduct] _ (by decide)⟩

/-- hydrateLoop on the ordinal row [-1, 5, 2]: the -1 is skipped and the
two in-range ordinals hydrate in order. -/
theorem hydrateLoop_pair (ds : List Dict) (h6 : 5 < ds.length) (h2 : 2 < ds.length) :
    hydrateLoop (some ds) [-1, 5, 2]
      = .ok [mkDisplay 5 (ds.get ⟨5, h6⟩), mkDisplay 2 (ds.get ⟨2, h2⟩)] := by
  have e5 : pyIndex ds 5 = some (ds.get ⟨5, h6⟩) := by
    simp [pyIndex, List.get?_eq_get h6]
  have e2 : pyIndex ds 2 = some (ds.get ⟨2, h2⟩) := by
    simp [pyIndex, List.get?_eq_get h2]
  simp [hydrateLoop, e5, e2]

/-- C6: with the nearest-neighbor index returning the ordinal row
[-1, 5, 2] for k = 3, a working embedding client and at least six loaded
detail records, FashionRAG.search drops the no-match ordinal -1 and
returns exactly the hydrated records of ordinals 5 then 2, in that
order. -/
theorem search_drops_no_match_ordinal (details : List Dict) (embed : EmbedClient)
    (vec : List ℚ) (query : String) (gender : PVal)
    (hembed : embed (searchQueryOf gender query) = .ok vec)
    (h6 : 5 < details.length) :
    FashionRAG.search ⟨some (fun _ _ => [-1, 5, 2]), some embed, some details⟩ query 3 gender
      = .ok [mkDisplay 5 (details.get ⟨5, h6⟩),
             mkDisplay 2 (details.get ⟨2, by omega⟩)] := by
  have hcall : FashionRAG.search ⟨some (fun _ _ => [-1, 5, 2]), some embed, some details⟩
        query 3 gender
      = match embed (searchQueryOf gender query) with
        | .error _ => .ok []
        | .ok _ => hydrateLoop (some details) [-1, 5, 2] := rfl
  rw [hcall, hembed]
  exact hydrateLoop_pair details h6 (by omega)

/-- Witness for C6 on a concrete six-record detail list. -/
theorem search_drops_no_match_ordinal_witness :
    FashionRAG.search ⟨some (fun _ _ => [-1, 5, 2]), some (fun _ => .ok []),
      some [[], [], [], [], [], []]⟩ "q" 3 .vNone
      = .ok [mkDisplay 5 [], mkDisplay 2 []] :=
  search_drops_no_match_ordinal [[], [], [], [], [], []] (fun _ => .ok []) [] "q" .vNone rfl
    (by norm_num)

/-- C1: on embedding-service failure the two retrieval paths diverge —
FashionRAG.search catches the failure (try/except) and degrades to the
empty list, but CustomerRAG.get_recommendations_for_customer performs its
embedding call outside any try/except, so with a loaded index and client
and a customer whose profile is usable the ServiceError propagates to the
caller instead of returning the empty list the claim requires. -/
theorem embedding_failure_propagates_from_history_retriever :
    FashionRAG.search ⟨some (fun _ _ => [0]), some (fun _ => .error "ServiceError"),
        some [sampleProduct]⟩ "red dress" 8 .vNone = .ok [] ∧
    CustomerRAG.get_recommendations_for_customer
        ⟨[], some (fun _ _ => [0]), some (fun _ => .error "ServiceError"),
          some [sampleProduct]⟩
        (fun _ => some []) "C001" [⟨"C001", "red dress", .raw "[]"⟩] [] [] .vNone
      = .error "ServiceError" :=
  ⟨rfl, rfl⟩

/-- C7: a customer with zero matching rows in all three tables gets exactly
the sentinel profile "No activity data found". -/
theorem empty_activity_profile_sentinel (rag : CustomerRAG)
    (litEval : String → Option (List String)) (customer_id : String)
    (sessions_df : List SessionRow) (transactions_df : List TransactionRow)
    (wishlists_df : List WishlistRow)
    (hs : ∀ r ∈ sessions_df, r.Customer_ID ≠ customer_id)
    (ht : ∀ r ∈ transactions_df, r.Customer_ID ≠ customer_id)
    (hw : ∀ r ∈ wishlists_df, r.Customer_ID ≠ customer_id) :
    (rag.build_customer_profile litEval customer_id sessions_df transactions_df
      wishlists_df).profile = "No activity data found" := by
  have hfs : (sessions_df.map (fun r =>
      { r with Clicked_Product_IDs :=
          Cell.parsed (safe_literal_eval litEval r.Clicked_Product_IDs) })).filter
        (fun r => r.Customer_ID == customer_id) = [] := by
    rw [List.filter_eq_nil_iff]
    intro r hr
    obtain ⟨r0, hr0, rfl⟩ := List.mem_map.mp hr
    simpa using hs r0 hr0
  have hft : (transactions_df.map (fun r =>
      { r with Purchased_Product_IDs :=
          Cell.parsed (safe_literal_eval litEval r.Purchased_Product_IDs) })).filter
        (fun r => r.Customer_ID == customer_id) = [] := by
    rw [List.filter_eq_nil_iff]
    intro r hr
    obtain ⟨r0, hr0, rfl⟩ := List.mem_map.mp hr
    simpa using ht r0 hr0
  have hfw : (wishlists_df.map (fun r =>
      { r with Wishlist_Items :=
          Cell.parsed (safe_literal_eval litEval r.Wishlist_Items) })).filter
        (fun r => r.Customer_ID == customer_id) = [] := by
    rw [List.filter_eq_nil_iff]
    intro r hr
    obtain ⟨r0, hr0, rfl⟩ := List.mem_map.mp hr
    simpa using hw r0 hr0
  simp only [CustomerRAG.build_customer_profile, hfs, hft, hfw]
  rfl

/-- Witness for C7: one session row of another customer, empty other
tables. -/
theorem empty_activity_profile_sentinel_witness :
    (CustomerRAG.build_customer_profile ⟨[], none, none, none⟩ (fun _ => none) "C001"
      [⟨"C002", "blue jeans", .raw "[]"⟩] [] []).profile = "No activity data found" :=
  empty_activity_profile_sentinel _ _ _ _ _ _ (by decide) (by decide) (by decide)

/-- C9: build_customer_profile's frame effect — on every call it overwrites
in place (modelled by the tables in the returned ProfileResult) exactly
the Clicked_Product_IDs column of sessions, the Purchased_Product_IDs
column of transactions and the Wishlist Items column of wishlists with
their parsed-list versions, while every other column of every row is
unchanged. -/
theorem build_profile_mutates_parsed_columns (rag : CustomerRAG)
    (litEval : String → Option (List String)) (customer_id : String)
    (sessions_df : List SessionRow) (transactions_df : List TransactionRow)
    (wishlists_df : List WishlistRow) :
    (rag.build_customer_profile litEval customer_id sessions_df transactions_df
        wishlists_df).sessions
      = sessions_df.map (fun r =>
          ⟨r.Customer_ID, r.Search_Queries,
            Cell.parsed (safe_literal_eval litEval r.Clicked_Product_IDs)⟩) ∧
    (rag.build_customer_profile litEval customer_id sessions_df transactions_df
        wishlists_df).transactions
      = transactions_df.map (fun r =>
          ⟨r.Customer_ID, Cell.parsed (safe_literal_eval litEval r.Purchased_Product_IDs)⟩) ∧
    (rag.build_customer_profile litEval customer_id sessions_df transactions_df
        wishlists_df).wishlists
      = wishlists_df.map (fun r =>
          ⟨r.Customer_ID, Cell.parsed (safe_literal_eval litEval r.Wishlist_Items)⟩) :=
  ⟨rfl, rfl, rfl⟩

/-- C10: get_recommendations_for_customer returns the empty list whenever
the built profile contains "No activity data" or "Error" anywhere as a
substring — for every index, client and gender, so no embedding call is
issued (the result is empty even under a client that would fail); a
usable profile that merely mentions "Error", e.g. inside a search query,
is short-circuited too. -/
theorem history_short_circuits_on_marker_substrings (rag : CustomerRAG)
    (litEval : String → Option (List String)) (customer_id : String)
    (sessions_df : List SessionRow) (transactions_df : List TransactionRow)
    (wishlists_df : List WishlistRow) (gender : PVal)
    (h : pyIn "No activity data"
          (rag.build_customer_profile litEval customer_id sessions_df transactions_df
            wishlists_df).profile = true
       ∨ pyIn "Error"
          (rag.build_customer_profile litEval customer_id sessions_df transactions_df
            wishlists_df).profile = true) :
    rag.get_recommendations_for_customer litEval customer_id sessions_df transactions_df
      wishlists_df gender = .ok [] := by
  have hcond : (pyIn "No activity data"
        (rag.build_customer_profile litEval customer_id sessions_df transactions_df
          wishlists_df).profile
      || pyIn "Error"
        (rag.build_customer_profile litEval customer_id sessions_df transactions_df
          wishlists_df).profile) = true := by
    rcases h with h | h <;> simp [h]
  simp only [CustomerRAG.get_recommendations_for_customer]
  rw [if_pos hcond]

/-- Witness for C10: a customer whose only activity is the search query
"Error 404 tee" — a usable profile that mentions "Error" — yields the
empty list even though index and client are loaded and the client would
fail if called. -/
theorem history_short_circuits_on_marker_substrings_witness :
    CustomerRAG.get_recommendations_for_customer
      ⟨[], some (fun _ _ => [0]), some (fun _ => .error "boom"), some []⟩ (fun _ => some [])
      "C9" [⟨"C9", "Error 404 tee", .raw "[]"⟩] [] [] .vNone = .ok [] :=
  history_short_circuits_on_marker_substrings _ _ _ _ _ _ _ (Or.inr (by decide))
